import Mathlib

/-!
Verification of the dyslexia risk-detection core: the six-field input
record, the threshold-based risk scorer (`analyzeData`) and the CSV
upload/validation path (`handleCSVUpload`) of the source application.

Numeric values are modelled as exact rationals (`ℚ`); strings coming from
the uploaded file are modelled as lists of characters, with the JavaScript
string operations the code uses (`trim`, `split`, `toLowerCase`,
`indexOf`, `Number`) embedded as executable functions on those lists.
-/

/-- The six-field numeric input record (`FormDataType` in the source). -/
structure FormDataType where
  readingSpeed : ℚ
  fixationDuration : ℚ
  saccadeLength : ℚ
  phonemeErrors : ℚ
  spellingErrors : ℚ
  comprehensionScore : ℚ
deriving DecidableEq, Repr

/-- The default record (`initialFormData` in the source). -/
def initialFormData : FormDataType :=
  { readingSpeed := 60
    fixationDuration := 350
    saccadeLength := 30
    phonemeErrors := 10
    spellingErrors := 7
    comprehensionScore := 70 }

/-- Per-field risk labels used in the result's `details`. -/
inductive RiskLevel where
  | Low
  | Medium
  | High
deriving DecidableEq, Repr

/-- A (low, high) threshold pair. -/
structure Threshold where
  low : ℚ
  high : ℚ

/-- The `thresholds` object of `analyzeData`. -/
structure Thresholds where
  readingSpeed : Threshold
  fixationDuration : Threshold
  saccadeLength : Threshold
  phonemeErrors : Threshold
  spellingErrors : Threshold
  comprehensionScore : Threshold

/-- The fixed threshold table hard-coded in `analyzeData`. -/
def thresholds : Thresholds :=
  { readingSpeed := ⟨50, 80⟩
    fixationDuration := ⟨300, 400⟩
    saccadeLength := ⟨20, 35⟩
    phonemeErrors := ⟨8, 12⟩
    spellingErrors := ⟨5, 10⟩
    comprehensionScore := ⟨60, 80⟩ }

/-- The fixed weight vector of `analyzeData`, in feature order. -/
def weights : List ℚ := [0.25, 0.15, 0.15, 0.20, 0.15, 0.10]

/-- The `switch (index)` inside `analyzeData`'s `forEach` loop: the per-field
score for the feature at a given index (default branch scores 0). -/
def scoreAt (index : ℕ) (value : ℚ) : ℚ :=
  match index with
  | 0 => if value < thresholds.readingSpeed.low then 2
         else if value < thresholds.readingSpeed.high then 1 else 0
  | 1 => if value > thresholds.fixationDuration.high then 2
         else if value > thresholds.fixationDuration.low then 1 else 0
  | 2 => if value < thresholds.saccadeLength.low then 2
         else if value < thresholds.saccadeLength.high then 1 else 0
  | 3 => if value > thresholds.phonemeErrors.high then 2
         else if value > thresholds.phonemeErrors.low then 1 else 0
  | 4 => if value > thresholds.spellingErrors.high then 2
         else if value > thresholds.spellingErrors.low then 1 else 0
  | 5 => if value < thresholds.comprehensionScore.low then 2
         else if value < thresholds.comprehensionScore.high then 1 else 0
  | _ => 0

/-- The `features` array of `analyzeData`, in declaration order. -/
def features (d : FormDataType) : List ℚ :=
  [d.readingSpeed, d.fixationDuration, d.saccadeLength,
   d.phonemeErrors, d.spellingErrors, d.comprehensionScore]

/-- The per-field risk labels of the result (`details` in the source). -/
structure RiskDetails where
  readingSpeedRisk : RiskLevel
  fixationRisk : RiskLevel
  saccadeRisk : RiskLevel
  phonemeRisk : RiskLevel
  spellingRisk : RiskLevel
  comprehensionRisk : RiskLevel
deriving DecidableEq, Repr

/-- The result object returned by `analyzeData`. -/
structure RiskResult where
  prediction : ℕ
  riskScore : ℚ
  confidence : ℚ
  details : RiskDetails
deriving DecidableEq, Repr

/-- The scorer (`analyzeData` in the source): accumulates `score * weight`
over the enumerated features, normalizes, classifies, and derives the
per-field labels with the same threshold comparisons on `features[i]`. -/
def analyzeData (dataToAnalyze : FormDataType) : RiskResult :=
  let fs := features dataToAnalyze
  let riskScore := fs.enum.foldl
    (fun acc p => acc + scoreAt p.1 p.2 * weights.getD p.1 0) 0
  let normalizedScore := riskScore / 2 * 10
  { prediction := if normalizedScore ≥ 5 then 1 else 0
    riskScore := normalizedScore
    confidence := (1 - |5 - normalizedScore| / 5) * 100
    details :=
      { readingSpeedRisk :=
          if fs.getD 0 0 < thresholds.readingSpeed.low then .High
          else if fs.getD 0 0 < thresholds.readingSpeed.high then .Medium else .Low
        fixationRisk :=
          if fs.getD 1 0 > thresholds.fixationDuration.high then .High
          else if fs.getD 1 0 > thresholds.fixationDuration.low then .Medium else .Low
        saccadeRisk :=
          if fs.getD 2 0 < thresholds.saccadeLength.low then .High
          else if fs.getD 2 0 < thresholds.saccadeLength.high then .Medium else .Low
        phonemeRisk :=
          if fs.getD 3 0 > thresholds.phonemeErrors.high then .High
          else if fs.getD 3 0 > thresholds.phonemeErrors.low then .Medium else .Low
        spellingRisk :=
          if fs.getD 4 0 > thresholds.spellingErrors.high then .High
          else if fs.getD 4 0 > thresholds.spellingErrors.low then .Medium else .Low
        comprehensionRisk :=
          if fs.getD 5 0 < thresholds.comprehensionScore.low then .High
          else if fs.getD 5 0 < thresholds.comprehensionScore.high then .Medium else .Low } }

/-- The weighted sum of the six per-field scores as the specification
describes it: fixed weights in field declaration order. -/
def weightedSum (d : FormDataType) : ℚ :=
  scoreAt 0 d.readingSpeed * 0.25 + scoreAt 1 d.fixationDuration * 0.15
    + scoreAt 2 d.saccadeLength * 0.15 + scoreAt 3 d.phonemeErrors * 0.20
    + scoreAt 4 d.spellingErrors * 0.15 + scoreAt 5 d.comprehensionScore * 0.10

/-- Whitespace as the JavaScript string `trim` treats it (ASCII fragment). -/
def jsWhitespace (c : Char) : Bool :=
  c == (' ') || c == ('\t') || c == ('\n') || c == ('\r')

/-- JavaScript `String.prototype.trim` on a character list. -/
def jsTrim (cs : List Char) : List Char :=
  ((cs.dropWhile jsWhitespace).reverse.dropWhile jsWhitespace).reverse

/-- JavaScript `String.prototype.split` with a one-character separator:
splitting the empty string yields one empty field, and separators at the
ends yield empty fields, as in JavaScript. -/
def jsSplit (sep : Char) (cs : List Char) : List (List Char) :=
  cs.foldr
    (fun c acc =>
      match acc with
      | [] => [[c]]
      | cur :: rest => if c == sep then [] :: cur :: rest else (c :: cur) :: rest)
    [[]]

/-- JavaScript `String.prototype.toLowerCase` on a character list. -/
def jsToLower (cs : List Char) : List Char := cs.map Char.toLower

/-- Value of a decimal digit character, if it is one. -/
def digit? (c : Char) : Option ℕ :=
  if c.isDigit then some (c.toNat - ('0').toNat) else none

/-- Reads a run of decimal digits as a natural number; any non-digit
yields `none`. The empty list reads as 0 (callers rule it out as needed). -/
def decDigits (cs : List Char) : Option ℕ :=
  cs.foldl
    (fun acc c =>
      match acc, digit? c with
      | some n, some d => some (10 * n + d)
      | _, _ => none)
    (some 0)

/-- Unsigned decimal numeral, with an optional fractional part: the forms
`123`, `123.45`, `.5` and `123.` convert; anything else is `none`. -/
def parseUnsigned (cs : List Char) : Option ℚ :=
  match jsSplit ('.') cs with
  | [intPart] =>
      if intPart.isEmpty then none
      else (decDigits intPart).map (fun n => (n : ℚ))
  | [intPart, fracPart] =>
      if intPart.isEmpty && fracPart.isEmpty then none
      else
        match decDigits intPart, decDigits fracPart with
        | some n, some f => some ((n : ℚ) + (f : ℚ) / (10 : ℚ) ^ fracPart.length)
        | _, _ => none
  | _ => none

/-- Modelled from the spec: the JavaScript `Number()` string conversion the
upload handler applies to each cell — a host builtin, not code of this
repository. It trims whitespace, converts the empty string to 0, parses an
optionally signed decimal numeral with an optional fractional part, and
yields NaN (modelled as `none`) on anything else; exotic forms (hex,
exponents, Infinity) do not occur in the fragment the claims exercise. -/
def jsNumber (cs : List Char) : Option ℚ :=
  let t := jsTrim cs
  if t.isEmpty then some 0
  else if t.head? = some ('-') then (parseUnsigned t.tail).map (fun q => -q)
  else if t.head? = some ('+') then parseUnsigned t.tail
  else parseUnsigned t

/-- The `expectedHeaders` array of `handleCSVUpload`. -/
def expectedHeaders : List (List Char) :=
  [("reading speed").toList, ("fixation duration").toList,
   ("saccade length").toList, ("phoneme errors").toList,
   ("spelling errors").toList, ("comprehension score").toList]

/-- The `lines` value of `handleCSVUpload`: `text.trim().split(chr(10))`. -/
def csvLines (text : String) : List (List Char) :=
  jsSplit ('\n') (jsTrim text.toList)

/-- The `header` value of `handleCSVUpload`: `lines[0].toLowerCase().split(comma)`. -/
def csvHeader (text : String) : List (List Char) :=
  jsSplit (',') (jsToLower ((csvLines text).getD 0 []))

/-- The `data` value of `handleCSVUpload`: `lines[1].split(comma)`. -/
def csvData (text : String) : List (List Char) :=
  jsSplit (',') ((csvLines text).getD 1 [])

/-- The header validation of `handleCSVUpload`: every expected label must
appear among the header cells after trimming each cell. -/
def isValidFormat (header : List (List Char)) : Bool :=
  expectedHeaders.all (fun h => header.any (fun c => jsTrim c == h))

/-- JavaScript `Array.prototype.indexOf` (`-1` modelled as `none`): the
exact, untrimmed lookup the data mapping uses. -/
def jsIndexOf (l : List (List Char)) (s : List Char) : Option ℕ :=
  l.findIdx? (fun c => c == s)

/-- One cell lookup of the data mapping: `Number(data[header.indexOf(label)])`
before the default substitution; a missing column (`indexOf` is `-1`) or a
missing cell reads `undefined`, whose conversion is NaN (`none`). -/
def readCell (header data : List (List Char)) (label : List Char) : Option ℚ :=
  match jsIndexOf header label with
  | none => none
  | some i =>
      match data[i]? with
      | none => none
      | some cell => jsNumber cell

/-- The `Number(...) || default` substitution of `handleCSVUpload`: NaN and
0 are falsy in JavaScript, so both are replaced by the default. -/
def numberOrDefault (v : Option ℚ) (dflt : ℚ) : Option ℚ :=
  match v with
  | none => some dflt
  | some q => if q = 0 then some dflt else some q

/-- The `newFormData` object of `handleCSVUpload`, field values still
carrying the (unreachable) NaN possibility checked afterwards. -/
structure ParsedRow where
  readingSpeed : Option ℚ
  fixationDuration : Option ℚ
  saccadeLength : Option ℚ
  phonemeErrors : Option ℚ
  spellingErrors : Option ℚ
  comprehensionScore : Option ℚ

/-- The data-mapping step of `handleCSVUpload` building `newFormData`. -/
def parseRow (header data : List (List Char)) : ParsedRow :=
  { readingSpeed :=
      numberOrDefault (readCell header data (("reading speed").toList))
        initialFormData.readingSpeed
    fixationDuration :=
      numberOrDefault (readCell header data (("fixation duration").toList))
        initialFormData.fixationDuration
    saccadeLength :=
      numberOrDefault (readCell header data (("saccade length").toList))
        initialFormData.saccadeLength
    phonemeErrors :=
      numberOrDefault (readCell header data (("phoneme errors").toList))
        initialFormData.phonemeErrors
    spellingErrors :=
      numberOrDefault (readCell header data (("spelling errors").toList))
        initialFormData.spellingErrors
    comprehensionScore :=
      numberOrDefault (readCell header data (("comprehension score").toList))
        initialFormData.comprehensionScore }

/-- The error thrown when fewer than two lines are supplied. -/
def errLines : String := "CSV file must contain a header row and at least one data row"

/-- The error thrown when the header validation fails. -/
def errFormat : String := "Invalid CSV format. Please ensure the headers match the required format."

/-- The `Object.entries(newFormData).forEach` NaN check of `handleCSVUpload`,
throwing a field-labeled error at the first NaN field (in declaration
order), else yielding the validated record. -/
def validateRow (p : ParsedRow) : Except String FormDataType :=
  if p.readingSpeed.isNone then .error ("Invalid number in reading speed")
  else if p.fixationDuration.isNone then .error ("Invalid number in fixation duration")
  else if p.saccadeLength.isNone then .error ("Invalid number in saccade length")
  else if p.phonemeErrors.isNone then .error ("Invalid number in phoneme errors")
  else if p.spellingErrors.isNone then .error ("Invalid number in spelling errors")
  else if p.comprehensionScore.isNone then .error ("Invalid number in comprehension score")
  else .ok
    { readingSpeed := p.readingSpeed.getD 0
      fixationDuration := p.fixationDuration.getD 0
      saccadeLength := p.saccadeLength.getD 0
      phonemeErrors := p.phonemeErrors.getD 0
      spellingErrors := p.spellingErrors.getD 0
      comprehensionScore := p.comprehensionScore.getD 0 }

/-- The CSV upload handler (`handleCSVUpload` in the source), from the
uploaded text to either an error message or the validated record. -/
def handleCSVUpload (text : String) : Except String FormDataType :=
  if (csvLines text).length < 2 then .error errLines
  else if !isValidFormat (csvHeader text) then .error errFormat
  else validateRow (parseRow (csvHeader text) (csvData text))

/-- The component state the upload path touches: the current record, the
current result and the CSV error message. -/
structure AppState where
  formData : FormDataType
  result : Option RiskResult
  csvError : Option String

/-- One upload interaction: on success the record is replaced, the result
recomputed and the error cleared; on failure only the error message is set. -/
def uploadStep (st : AppState) (text : String) : AppState :=
  match handleCSVUpload text with
  | .ok newFormData =>
      { formData := newFormData
        result := some (analyzeData newFormData)
        csvError := none }
  | .error e => { st with csvError := some e }

/-- Upload text carrying the value 0 in the reading-speed column. -/
def csvZeroUpload : String :=
  "reading speed,fixation duration,saccade length,phoneme errors,spelling errors,comprehension score\n0,350,30,10,7,70"

/-- Upload text carrying the unparseable value abc in the reading-speed column. -/
def csvAbcUpload : String :=
  "reading speed,fixation duration,saccade length,phoneme errors,spelling errors,comprehension score\nabc,350,30,10,7,70"

/-- Upload text whose first header label has a leading space, and whose
first data value is 100. -/
def csvLeadingSpaceUpload : String :=
  " reading speed,fixation duration,saccade length,phoneme errors,spelling errors,comprehension score\n100,350,30,10,7,70"

/-- A header row (already lowercased and split) whose second label carries
a leading space that the initial whole-text trim cannot remove. -/
def hdrPadded : List (List Char) :=
  [("reading speed").toList, (" fixation duration").toList,
   ("saccade length").toList, ("phoneme errors").toList,
   ("spelling errors").toList, ("comprehension score").toList]

/-- Upload text with a space after the first comma of the header (so the
fixation-duration label is padded) and 999 in the fixation column. -/
def csvPaddedMidUpload : String :=
  "reading speed, fixation duration,saccade length,phoneme errors,spelling errors,comprehension score\n100,999,30,10,7,70"

lemma scoreAt_zero (v : ℚ) :
    scoreAt 0 v = if v < 50 then 2 else if v < 80 then 1 else 0 := rfl

lemma scoreAt_one (v : ℚ) :
    scoreAt 1 v = if v > 400 then 2 else if v > 300 then 1 else 0 := rfl

lemma scoreAt_two (v : ℚ) :
    scoreAt 2 v = if v < 20 then 2 else if v < 35 then 1 else 0 := rfl

lemma scoreAt_three (v : ℚ) :
    scoreAt 3 v = if v > 12 then 2 else if v > 8 then 1 else 0 := rfl

lemma scoreAt_four (v : ℚ) :
    scoreAt 4 v = if v > 10 then 2 else if v > 5 then 1 else 0 := rfl

lemma scoreAt_five (v : ℚ) :
    scoreAt 5 v = if v < 60 then 2 else if v < 80 then 1 else 0 := rfl

lemma scoreAt_mem (i : ℕ) (v : ℚ) :
    scoreAt i v = 0 ∨ scoreAt i v = 1 ∨ scoreAt i v = 2 := by
  rcases i with _ | _ | _ | _ | _ | _ | i <;>
    first
      | exact Or.inl rfl
      | (simp only [scoreAt]; split_ifs <;> decide)

lemma scoreAt_bounds (i : ℕ) (v : ℚ) : 0 ≤ scoreAt i v ∧ scoreAt i v ≤ 2 := by
  rcases scoreAt_mem i v with h | h | h <;> rw [h] <;> constructor <;> norm_num

lemma analyzeData_riskScore (d : FormDataType) :
    (analyzeData d).riskScore = weightedSum d / 2 * 10 := by
  show (((((((0:ℚ) + scoreAt 0 d.readingSpeed * 0.25)
      + scoreAt 1 d.fixationDuration * 0.15)
      + scoreAt 2 d.saccadeLength * 0.15) + scoreAt 3 d.phonemeErrors * 0.20)
      + scoreAt 4 d.spellingErrors * 0.15) + scoreAt 5 d.comprehensionScore * 0.10) / 2 * 10
      = weightedSum d / 2 * 10
  unfold weightedSum
  ring

lemma analyzeData_prediction (d : FormDataType) :
    (analyzeData d).prediction = if 5 ≤ (analyzeData d).riskScore then 1 else 0 := rfl

lemma analyzeData_confidence (d : FormDataType) :
    (analyzeData d).confidence = (1 - |5 - (analyzeData d).riskScore| / 5) * 100 := rfl

lemma analyzeData_readingSpeedRisk (d : FormDataType) :
    (analyzeData d).details.readingSpeedRisk =
      (if d.readingSpeed < 50 then RiskLevel.High
       else if d.readingSpeed < 80 then RiskLevel.Medium else RiskLevel.Low) := rfl

lemma analyzeData_fixationRisk (d : FormDataType) :
    (analyzeData d).details.fixationRisk =
      (if d.fixationDuration > 400 then RiskLevel.High
       else if d.fixationDuration > 300 then RiskLevel.Medium else RiskLevel.Low) := rfl

lemma analyzeData_saccadeRisk (d : FormDataType) :
    (analyzeData d).details.saccadeRisk =
      (if d.saccadeLength < 20 then RiskLevel.High
       else if d.saccadeLength < 35 then RiskLevel.Medium else RiskLevel.Low) := rfl

lemma analyzeData_phonemeRisk (d : FormDataType) :
    (analyzeData d).details.phonemeRisk =
      (if d.phonemeErrors > 12 then RiskLevel.High
       else if d.phonemeErrors > 8 then RiskLevel.Medium else RiskLevel.Low) := rfl

lemma analyzeData_spellingRisk (d : FormDataType) :
    (analyzeData d).details.spellingRisk =
      (if d.spellingErrors > 10 then RiskLevel.High
       else if d.spellingErrors > 5 then RiskLevel.Medium else RiskLevel.Low) := rfl

lemma analyzeData_comprehensionRisk (d : FormDataType) :
    (analyzeData d).details.comprehensionRisk =
      (if d.comprehensionScore < 60 then RiskLevel.High
       else if d.comprehensionScore < 80 then RiskLevel.Medium else RiskLevel.Low) := rfl

lemma lowScore_spec (v low high : ℚ) (hlh : low ≤ high) :
    ((if v < low then (2:ℚ) else if v < high then 1 else 0) = 2 ↔ v < low) ∧
    ((if v < low then (2:ℚ) else if v < high then 1 else 0) = 1 ↔ low ≤ v ∧ v < high) ∧
    ((if v < low then (2:ℚ) else if v < high then 1 else 0) = 0 ↔ high ≤ v) := by
  rcases lt_or_le v low with h1 | h1
  · rw [if_pos h1]
    refine ⟨iff_of_true rfl h1, iff_of_false (by norm_num) ?_, iff_of_false (by norm_num) ?_⟩
    · rintro ⟨h2, _⟩; linarith
    · intro h2; linarith
  · rcases lt_or_le v high with h2 | h2
    · rw [if_neg (not_lt.2 h1), if_pos h2]
      refine ⟨iff_of_false (by norm_num) ?_, iff_of_true rfl ⟨h1, h2⟩,
        iff_of_false (by norm_num) ?_⟩
      · intro h3; linarith
      · intro h3; linarith
    · rw [if_neg (not_lt.2 h1), if_neg (not_lt.2 h2)]
      refine ⟨iff_of_false (by norm_num) ?_, iff_of_false (by norm_num) ?_,
        iff_of_true rfl h2⟩
      · intro h3; linarith
      · rintro ⟨_, h3⟩; linarith

lemma highScore_spec (v low high : ℚ) (hlh : low ≤ high) :
    ((if v > high then (2:ℚ) else if v > low then 1 else 0) = 2 ↔ high < v) ∧
    ((if v > high then (2:ℚ) else if v > low then 1 else 0) = 1 ↔ low < v ∧ v ≤ high) ∧
    ((if v > high then (2:ℚ) else if v > low then 1 else 0) = 0 ↔ v ≤ low) := by
  rcases lt_or_le high v with h1 | h1
  · rw [if_pos h1]
    refine ⟨iff_of_true rfl h1, iff_of_false (by norm_num) ?_, iff_of_false (by norm_num) ?_⟩
    · rintro ⟨_, h2⟩; linarith
    · intro h2; linarith
  · rcases lt_or_le low v with h2 | h2
    · rw [if_neg (not_lt.2 h1), if_pos h2]
      refine ⟨iff_of_false (by norm_num) (not_lt.2 h1), iff_of_true rfl ⟨h2, h1⟩,
        iff_of_false (by norm_num) ?_⟩
      intro h3; linarith
    · rw [if_neg (not_lt.2 h1), if_neg (not_lt.2 h2)]
      refine ⟨iff_of_false (by norm_num) (not_lt.2 h1), iff_of_false (by norm_num) ?_,
        iff_of_true rfl h2⟩
      rintro ⟨h3, _⟩; linarith

lemma lowLabel_spec (v low high : ℚ) :
    ((if v < low then RiskLevel.High else if v < high then RiskLevel.Medium else RiskLevel.Low)
        = RiskLevel.Low ↔ (if v < low then (2:ℚ) else if v < high then 1 else 0) = 0) ∧
    ((if v < low then RiskLevel.High else if v < high then RiskLevel.Medium else RiskLevel.Low)
        = RiskLevel.Medium ↔ (if v < low then (2:ℚ) else if v < high then 1 else 0) = 1) ∧
    ((if v < low then RiskLevel.High else if v < high then RiskLevel.Medium else RiskLevel.Low)
        = RiskLevel.High ↔ (if v < low then (2:ℚ) else if v < high then 1 else 0) = 2) := by
  split_ifs <;> refine ⟨?_, ?_, ?_⟩ <;> decide

lemma highLabel_spec (v low high : ℚ) :
    ((if v > high then RiskLevel.High else if v > low then RiskLevel.Medium else RiskLevel.Low)
        = RiskLevel.Low ↔ (if v > high then (2:ℚ) else if v > low then 1 else 0) = 0) ∧
    ((if v > high then RiskLevel.High else if v > low then RiskLevel.Medium else RiskLevel.Low)
        = RiskLevel.Medium ↔ (if v > high then (2:ℚ) else if v > low then 1 else 0) = 1) ∧
    ((if v > high then RiskLevel.High else if v > low then RiskLevel.Medium else RiskLevel.Low)
        = RiskLevel.High ↔ (if v > high then (2:ℚ) else if v > low then 1 else 0) = 2) := by
  split_ifs <;> refine ⟨?_, ?_, ?_⟩ <;> decide

lemma weightedSum_nonneg (d : FormDataType) : 0 ≤ weightedSum d := by
  obtain ⟨a0, b0⟩ := scoreAt_bounds 0 d.readingSpeed
  obtain ⟨a1, b1⟩ := scoreAt_bounds 1 d.fixationDuration
  obtain ⟨a2, b2⟩ := scoreAt_bounds 2 d.saccadeLength
  obtain ⟨a3, b3⟩ := scoreAt_bounds 3 d.phonemeErrors
  obtain ⟨a4, b4⟩ := scoreAt_bounds 4 d.spellingErrors
  obtain ⟨a5, b5⟩ := scoreAt_bounds 5 d.comprehensionScore
  unfold weightedSum
  linarith

lemma weightedSum_le_two (d : FormDataType) : weightedSum d ≤ 2 := by
  obtain ⟨a0, b0⟩ := scoreAt_bounds 0 d.readingSpeed
  obtain ⟨a1, b1⟩ := scoreAt_bounds 1 d.fixationDuration
  obtain ⟨a2, b2⟩ := scoreAt_bounds 2 d.saccadeLength
  obtain ⟨a3, b3⟩ := scoreAt_bounds 3 d.phonemeErrors
  obtain ⟨a4, b4⟩ := scoreAt_bounds 4 d.spellingErrors
  obtain ⟨a5, b5⟩ := scoreAt_bounds 5 d.comprehensionScore
  unfold weightedSum
  linarith

lemma riskScore_nonneg (d : FormDataType) : 0 ≤ (analyzeData d).riskScore := by
  rw [analyzeData_riskScore]
  have := weightedSum_nonneg d
  linarith

lemma riskScore_le_ten (d : FormDataType) : (analyzeData d).riskScore ≤ 10 := by
  rw [analyzeData_riskScore]
  have := weightedSum_le_two d
  linarith

lemma numberOrDefault_isNone_false (v : Option ℚ) (dflt : ℚ) :
    (numberOrDefault v dflt).isNone = false := by
  cases v with
  | none => rfl
  | some q =>
      simp only [numberOrDefault]
      split_ifs <;> rfl

lemma validateRow_parseRow_not_error (header data : List (List Char)) (e : String) :
    validateRow (parseRow header data) ≠ Except.error e := by
  simp [validateRow, parseRow, numberOrDefault_isNone_false]

/-- C1: for every InputRecord the scorer assigns each of the six fields a
score in the set 0,1,2 by the fixed threshold table: for the low-value-risk
fields (readingSpeed 50/80, saccadeLength 20/35, comprehensionScore 60/80)
the score is 2 iff the value is strictly below the low threshold, 1 iff it
is at least the low threshold and strictly below the high one, 0 iff it is
at least the high one; for the high-value-risk fields (fixationDuration
300/400, phonemeErrors 8/12, spellingErrors 5/10) the score is 2 iff the
value is strictly above the high threshold, 1 iff it is strictly above the
low one but at most the high one, 0 iff it is at most the low one. -/
theorem perFieldScore_threshold_table (d : FormDataType) :
    (scoreAt 0 d.readingSpeed = 0 ∨ scoreAt 0 d.readingSpeed = 1 ∨ scoreAt 0 d.readingSpeed = 2) ∧
    (scoreAt 0 d.readingSpeed = 2 ↔ d.readingSpeed < 50) ∧
    (scoreAt 0 d.readingSpeed = 1 ↔ 50 ≤ d.readingSpeed ∧ d.readingSpeed < 80) ∧
    (scoreAt 0 d.readingSpeed = 0 ↔ 80 ≤ d.readingSpeed) ∧
    (scoreAt 1 d.fixationDuration = 0 ∨ scoreAt 1 d.fixationDuration = 1 ∨ scoreAt 1 d.fixationDuration = 2) ∧
    (scoreAt 1 d.fixationDuration = 2 ↔ 400 < d.fixationDuration) ∧
    (scoreAt 1 d.fixationDuration = 1 ↔ 300 < d.fixationDuration ∧ d.fixationDuration ≤ 400) ∧
    (scoreAt 1 d.fixationDuration = 0 ↔ d.fixationDuration ≤ 300) ∧
    (scoreAt 2 d.saccadeLength = 0 ∨ scoreAt 2 d.saccadeLength = 1 ∨ scoreAt 2 d.saccadeLength = 2) ∧
    (scoreAt 2 d.saccadeLength = 2 ↔ d.saccadeLength < 20) ∧
    (scoreAt 2 d.saccadeLength = 1 ↔ 20 ≤ d.saccadeLength ∧ d.saccadeLength < 35) ∧
    (scoreAt 2 d.saccadeLength = 0 ↔ 35 ≤ d.saccadeLength) ∧
    (scoreAt 3 d.phonemeErrors = 0 ∨ scoreAt 3 d.phonemeErrors = 1 ∨ scoreAt 3 d.phonemeErrors = 2) ∧
    (scoreAt 3 d.phonemeErrors = 2 ↔ 12 < d.phonemeErrors) ∧
    (scoreAt 3 d.phonemeErrors = 1 ↔ 8 < d.phonemeErrors ∧ d.phonemeErrors ≤ 12) ∧
    (scoreAt 3 d.phonemeErrors = 0 ↔ d.phonemeErrors ≤ 8) ∧
    (scoreAt 4 d.spellingErrors = 0 ∨ scoreAt 4 d.spellingErrors = 1 ∨ scoreAt 4 d.spellingErrors = 2) ∧
    (scoreAt 4 d.spellingErrors = 2 ↔ 10 < d.spellingErrors) ∧
    (scoreAt 4 d.spellingErrors = 1 ↔ 5 < d.spellingErrors ∧ d.spellingErrors ≤ 10) ∧
    (scoreAt 4 d.spellingErrors = 0 ↔ d.spellingErrors ≤ 5) ∧
    (scoreAt 5 d.comprehensionScore = 0 ∨ scoreAt 5 d.comprehensionScore = 1 ∨ scoreAt 5 d.comprehensionScore = 2) ∧
    (scoreAt 5 d.comprehensionScore = 2 ↔ d.comprehensionScore < 60) ∧
    (scoreAt 5 d.comprehensionScore = 1 ↔ 60 ≤ d.comprehensionScore ∧ d.comprehensionScore < 80) ∧
    (scoreAt 5 d.comprehensionScore = 0 ↔ 80 ≤ d.comprehensionScore) := by
  rw [scoreAt_zero, scoreAt_one, scoreAt_two, scoreAt_three, scoreAt_four, scoreAt_five]
  obtain ⟨a0, b0, c0⟩ := lowScore_spec d.readingSpeed 50 80 (by norm_num)
  obtain ⟨a1, b1, c1⟩ := highScore_spec d.fixationDuration 300 400 (by norm_num)
  obtain ⟨a2, b2, c2⟩ := lowScore_spec d.saccadeLength 20 35 (by norm_num)
  obtain ⟨a3, b3, c3⟩ := highScore_spec d.phonemeErrors 8 12 (by norm_num)
  obtain ⟨a4, b4, c4⟩ := highScore_spec d.spellingErrors 5 10 (by norm_num)
  obtain ⟨a5, b5, c5⟩ := lowScore_spec d.comprehensionScore 60 80 (by norm_num)
  exact ⟨(scoreAt_zero d.readingSpeed) ▸ scoreAt_mem 0 d.readingSpeed, a0, b0, c0,
    (scoreAt_one d.fixationDuration) ▸ scoreAt_mem 1 d.fixationDuration, a1, b1, c1,
    (scoreAt_two d.saccadeLength) ▸ scoreAt_mem 2 d.saccadeLength, a2, b2, c2,
    (scoreAt_three d.phonemeErrors) ▸ scoreAt_mem 3 d.phonemeErrors, a3, b3, c3,
    (scoreAt_four d.spellingErrors) ▸ scoreAt_mem 4 d.spellingErrors, a4, b4, c4,
    (scoreAt_five d.comprehensionScore) ▸ scoreAt_mem 5 d.comprehensionScore, a5, b5, c5⟩

/-- C2: for every InputRecord, riskScore equals (weightedSum / 2) * 10
for the weighted sum of the six per-field scores with the fixed weights
in field declaration order, and riskScore lies in the interval 0..10. -/
theorem riskScore_weighted_sum_bounds (d : FormDataType) :
    (analyzeData d).riskScore = weightedSum d / 2 * 10 ∧
    0 ≤ (analyzeData d).riskScore ∧ (analyzeData d).riskScore ≤ 10 :=
  ⟨analyzeData_riskScore d, riskScore_nonneg d, riskScore_le_ten d⟩

/-- C3: for every InputRecord the prediction is 1 exactly when riskScore
is at least 5 (the boundary riskScore = 5 yields prediction 1) and 0
exactly when riskScore is below 5. -/
theorem prediction_boundary (d : FormDataType) :
    ((analyzeData d).prediction = 1 ↔ 5 ≤ (analyzeData d).riskScore) ∧
    ((analyzeData d).prediction = 0 ↔ (analyzeData d).riskScore < 5) ∧
    ((analyzeData d).riskScore = 5 → (analyzeData d).prediction = 1) := by
  have hp := analyzeData_prediction d
  by_cases h : 5 ≤ (analyzeData d).riskScore
  · rw [hp, if_pos h]
    exact ⟨iff_of_true rfl h, iff_of_false (by norm_num) (not_lt.2 h), fun _ => rfl⟩
  · rw [hp, if_neg h]
    push_neg at h
    refine ⟨iff_of_false (by norm_num) (not_le.2 h), iff_of_true rfl h, fun he => ?_⟩
    rw [he] at h
    exact absurd h (lt_irrefl 5)

/-- C4: for every InputRecord, confidence equals
(1 - abs (5 - riskScore) / 5) * 100; consequently it lies in 0..100,
equals 100 exactly when riskScore = 5, and equals 0 when riskScore is 0
or 10. -/
theorem confidence_shape (d : FormDataType) :
    (analyzeData d).confidence = (1 - |5 - (analyzeData d).riskScore| / 5) * 100 ∧
    0 ≤ (analyzeData d).confidence ∧ (analyzeData d).confidence ≤ 100 ∧
    ((analyzeData d).confidence = 100 ↔ (analyzeData d).riskScore = 5) ∧
    ((analyzeData d).riskScore = 0 → (analyzeData d).confidence = 0) ∧
    ((analyzeData d).riskScore = 10 → (analyzeData d).confidence = 0) := by
  have hc := analyzeData_confidence d
  have h0 := riskScore_nonneg d
  have h10 := riskScore_le_ten d
  have habs : |5 - (analyzeData d).riskScore| ≤ 5 :=
    abs_le.2 ⟨by linarith, by linarith⟩
  have habs0 : 0 ≤ |5 - (analyzeData d).riskScore| := abs_nonneg _
  refine ⟨hc, by rw [hc]; linarith, by rw [hc]; linarith, ?_, ?_, ?_⟩
  · rw [hc]
    constructor
    · intro h
      have hz : |5 - (analyzeData d).riskScore| = 0 := by linarith
      have := abs_eq_zero.1 hz
      linarith
    · intro h
      rw [h]
      norm_num
  · intro h
    rw [hc, h]
    rw [show |(5:ℚ) - 0| = 5 from by rw [abs_of_nonneg] <;> norm_num]
    norm_num
  · intro h
    rw [hc, h]
    rw [show |(5:ℚ) - 10| = 5 from by rw [abs_of_nonpos] <;> norm_num]
    norm_num

/-- C8: for every InputRecord and each of the six fields, the risk label in
the result's details is Low exactly when that field's numeric score is 0,
Medium exactly when it is 1, and High exactly when it is 2 — both sides
coming from the same threshold comparisons. -/
theorem details_labels_match_scores (d : FormDataType) :
    ((analyzeData d).details.readingSpeedRisk = RiskLevel.Low ↔ scoreAt 0 d.readingSpeed = 0) ∧
    ((analyzeData d).details.readingSpeedRisk = RiskLevel.Medium ↔ scoreAt 0 d.readingSpeed = 1) ∧
    ((analyzeData d).details.readingSpeedRisk = RiskLevel.High ↔ scoreAt 0 d.readingSpeed = 2) ∧
    ((analyzeData d).details.fixationRisk = RiskLevel.Low ↔ scoreAt 1 d.fixationDuration = 0) ∧
    ((analyzeData d).details.fixationRisk = RiskLevel.Medium ↔ scoreAt 1 d.fixationDuration = 1) ∧
    ((analyzeData d).details.fixationRisk = RiskLevel.High ↔ scoreAt 1 d.fixationDuration = 2) ∧
    ((analyzeData d).details.saccadeRisk = RiskLevel.Low ↔ scoreAt 2 d.saccadeLength = 0) ∧
    ((analyzeData d).details.saccadeRisk = RiskLevel.Medium ↔ scoreAt 2 d.saccadeLength = 1) ∧
    ((analyzeData d).details.saccadeRisk = RiskLevel.High ↔ scoreAt 2 d.saccadeLength = 2) ∧
    ((analyzeData d).details.phonemeRisk = RiskLevel.Low ↔ scoreAt 3 d.phonemeErrors = 0) ∧
    ((analyzeData d).details.phonemeRisk = RiskLevel.Medium ↔ scoreAt 3 d.phonemeErrors = 1) ∧
    ((analyzeData d).details.phonemeRisk = RiskLevel.High ↔ scoreAt 3 d.phonemeErrors = 2) ∧
    ((analyzeData d).details.spellingRisk = RiskLevel.Low ↔ scoreAt 4 d.spellingErrors = 0) ∧
    ((analyzeData d).details.spellingRisk = RiskLevel.Medium ↔ scoreAt 4 d.spellingErrors = 1) ∧
    ((analyzeData d).details.spellingRisk = RiskLevel.High ↔ scoreAt 4 d.spellingErrors = 2) ∧
    ((analyzeData d).details.comprehensionRisk = RiskLevel.Low ↔ scoreAt 5 d.comprehensionScore = 0) ∧
    ((analyzeData d).details.comprehensionRisk = RiskLevel.Medium ↔ scoreAt 5 d.comprehensionScore = 1) ∧
    ((analyzeData d).details.comprehensionRisk = RiskLevel.High ↔ scoreAt 5 d.comprehensionScore = 2) := by
  rw [analyzeData_readingSpeedRisk, analyzeData_fixationRisk, analyzeData_saccadeRisk,
    analyzeData_phonemeRisk, analyzeData_spellingRisk, analyzeData_comprehensionRisk,
    scoreAt_zero, scoreAt_one, scoreAt_two, scoreAt_three, scoreAt_four, scoreAt_five]
  obtain ⟨p0, q0, r0⟩ := lowLabel_spec d.readingSpeed 50 80
  obtain ⟨p1, q1, r1⟩ := highLabel_spec d.fixationDuration 300 400
  obtain ⟨p2, q2, r2⟩ := lowLabel_spec d.saccadeLength 20 35
  obtain ⟨p3, q3, r3⟩ := highLabel_spec d.phonemeErrors 8 12
  obtain ⟨p4, q4, r4⟩ := highLabel_spec d.spellingErrors 5 10
  obtain ⟨p5, q5, r5⟩ := lowLabel_spec d.comprehensionScore 60 80
  exact ⟨p0, q0, r0, p1, q1, r1, p2, q2, r2, p3, q3, r3, p4, q4, r4, p5, q5, r5⟩

/-- C9: for the default InputRecord (60, 350, 30, 10, 7, 70) all six
per-field scores are 1 with label Medium, the weighted sum is 1, riskScore
is exactly 5, prediction is 1, and confidence is 100. -/
theorem default_record_scores :
    scoreAt 0 initialFormData.readingSpeed = 1 ∧
    scoreAt 1 initialFormData.fixationDuration = 1 ∧
    scoreAt 2 initialFormData.saccadeLength = 1 ∧
    scoreAt 3 initialFormData.phonemeErrors = 1 ∧
    scoreAt 4 initialFormData.spellingErrors = 1 ∧
    scoreAt 5 initialFormData.comprehensionScore = 1 ∧
    weightedSum initialFormData = 1 ∧
    (analyzeData initialFormData).riskScore = 5 ∧
    (analyzeData initialFormData).prediction = 1 ∧
    (analyzeData initialFormData).confidence = 100 ∧
    (analyzeData initialFormData).details.readingSpeedRisk = RiskLevel.Medium ∧
    (analyzeData initialFormData).details.fixationRisk = RiskLevel.Medium ∧
    (analyzeData initialFormData).details.saccadeRisk = RiskLevel.Medium ∧
    (analyzeData initialFormData).details.phonemeRisk = RiskLevel.Medium ∧
    (analyzeData initialFormData).details.spellingRisk = RiskLevel.Medium ∧
    (analyzeData initialFormData).details.comprehensionRisk = RiskLevel.Medium := by
  have hs0 : scoreAt 0 initialFormData.readingSpeed = 1 := by
    rw [scoreAt_zero]; norm_num [initialFormData]
  have hs1 : scoreAt 1 initialFormData.fixationDuration = 1 := by
    rw [scoreAt_one]; norm_num [initialFormData]
  have hs2 : scoreAt 2 initialFormData.saccadeLength = 1 := by
    rw [scoreAt_two]; norm_num [initialFormData]
  have hs3 : scoreAt 3 initialFormData.phonemeErrors = 1 := by
    rw [scoreAt_three]; norm_num [initialFormData]
  have hs4 : scoreAt 4 initialFormData.spellingErrors = 1 := by
    rw [scoreAt_four]; norm_num [initialFormData]
  have hs5 : scoreAt 5 initialFormData.comprehensionScore = 1 := by
    rw [scoreAt_five]; norm_num [initialFormData]
  have hw : weightedSum initialFormData = 1 := by
    unfold weightedSum
    rw [hs0, hs1, hs2, hs3, hs4, hs5]
    norm_num
  have hr : (analyzeData initialFormData).riskScore = 5 := by
    rw [analyzeData_riskScore, hw]
    norm_num
  have hp : (analyzeData initialFormData).prediction = 1 := by
    rw [analyzeData_prediction, hr]
    norm_num
  have hcf : (analyzeData initialFormData).confidence = 100 := by
    rw [analyzeData_confidence, hr]
    norm_num
  have e0 : (analyzeData initialFormData).details.readingSpeedRisk = RiskLevel.Medium := by
    rw [analyzeData_readingSpeedRisk]
    norm_num [initialFormData]
  have e1 : (analyzeData initialFormData).details.fixationRisk = RiskLevel.Medium := by
    rw [analyzeData_fixationRisk]
    norm_num [initialFormData]
  have e2 : (analyzeData initialFormData).details.saccadeRisk = RiskLevel.Medium := by
    rw [analyzeData_saccadeRisk]
    norm_num [initialFormData]
  have e3 : (analyzeData initialFormData).details.phonemeRisk = RiskLevel.Medium := by
    rw [analyzeData_phonemeRisk]
    norm_num [initialFormData]
  have e4 : (analyzeData initialFormData).details.spellingRisk = RiskLevel.Medium := by
    rw [analyzeData_spellingRisk]
    norm_num [initialFormData]
  have e5 : (analyzeData initialFormData).details.comprehensionRisk = RiskLevel.Medium := by
    rw [analyzeData_comprehensionRisk]
    norm_num [initialFormData]
  exact ⟨hs0, hs1, hs2, hs3, hs4, hs5, hw, hr, hp, hcf, e0, e1, e2, e3, e4, e5⟩

/-- C5 counterexample: an upload carrying the value 0 in the recognized
reading-speed column does not yield 0 for that field — the falsy 0 triggers
the default substitution, so readingSpeed becomes 60 rather than 0. -/
theorem zero_value_replaced_by_default :
    handleCSVUpload csvZeroUpload = Except.ok ⟨60, 350, 30, 10, 7, 70⟩ ∧
    initialFormData.readingSpeed = 60 ∧ (60 : ℚ) ≠ 0 := by
  refine ⟨by rfl, by rfl, by norm_num⟩

/-- C5 amended: a recognized column whose value converts to a nonzero
number yields exactly that number; the predefined default is substituted
exactly when the cell reads as NaN (absent column or cell, or unparseable
text) or when it converts to the falsy number 0, and substitution itself
never raises an error (it always yields a number). -/
theorem value_substitution_semantics (header data : List (List Char))
    (label : List Char) (dflt : ℚ) :
    (readCell header data label = none →
      numberOrDefault (readCell header data label) dflt = some dflt) ∧
    (readCell header data label = some 0 →
      numberOrDefault (readCell header data label) dflt = some dflt) ∧
    (∀ q : ℚ, readCell header data label = some q → q ≠ 0 →
      numberOrDefault (readCell header data label) dflt = some q) := by
  refine ⟨fun h => ?_, fun h => ?_, fun q h hq => ?_⟩
  · rw [h]
    rfl
  · rw [h]
    simp [numberOrDefault]
  · rw [h]
    simp [numberOrDefault, hq]

/-- C6 counterexample: an upload carrying the unparseable value abc in the
reading-speed column does not fail — the NaN is replaced by the default 60
and a record is produced, with no error raised. -/
theorem unparseable_value_no_error :
    handleCSVUpload csvAbcUpload = Except.ok ⟨60, 350, 30, 10, 7, 70⟩ ∧
    jsNumber (("abc").toList) = none := by
  refine ⟨by rfl, by rfl⟩

/-- C6 amended: a present but unparseable value never makes validation
fail; the default substitution removes every NaN before the field-labeled
check, so that check is unreachable and the only errors an upload can
produce are the two format errors (too few lines, or bad header). -/
theorem upload_errors_are_format_only (text : String) (e : String)
    (h : handleCSVUpload text = Except.error e) :
    e = errLines ∨ e = errFormat := by
  unfold handleCSVUpload at h
  split_ifs at h
  · exact Or.inl (Except.error.inj h).symm
  · exact Or.inr (Except.error.inj h).symm
  · exact absurd h (validateRow_parseRow_not_error _ _ _)

/-- Witness for the amended C6 theorem at the concrete one-line upload x. -/
theorem upload_errors_are_format_only_witness :
    errLines = errLines ∨ errLines = errFormat :=
  upload_errors_are_format_only "x" errLines (by rfl)

/-- C7: an upload with fewer than two lines fails with the line-count
format error; one with enough lines whose header validation fails yields
the header format error (whatever the data row holds); and every failing
upload leaves the previous record and result unchanged, only setting the
error message. -/
theorem format_error_no_side_effect (st : AppState) (text : String) :
    ((csvLines text).length < 2 → handleCSVUpload text = Except.error errLines) ∧
    (2 ≤ (csvLines text).length → isValidFormat (csvHeader text) = false →
      handleCSVUpload text = Except.error errFormat) ∧
    (∀ e : String, handleCSVUpload text = Except.error e →
      uploadStep st text = { st with csvError := some e }) := by
  refine ⟨fun h => ?_, fun h1 h2 => ?_, fun e he => ?_⟩
  · unfold handleCSVUpload
    rw [if_pos h]
  · unfold handleCSVUpload
    rw [if_neg (not_lt.2 h1), h2]
    simp
  · unfold uploadStep
    rw [he]

/-- C10 counterexample: when the whitespace-padded recognized label is the
first header cell with a leading space, the initial trim of the whole text
removes that space, the exact lookup then succeeds, and the field receives
the uploaded value 100 — not its predefined default 60. -/
theorem leading_space_header_uses_value :
    handleCSVUpload csvLeadingSpaceUpload = Except.ok ⟨100, 350, 30, 10, 7, 70⟩ ∧
    (100 : ℚ) ≠ initialFormData.readingSpeed := by
  refine ⟨by rfl, by norm_num [initialFormData]⟩

/-- C10 amended: for a recognized label padded with whitespace in the
header at a position the initial whole-text trim cannot reach (such as an
interior column), header validation succeeds because cells are trimmed for
the comparison, but the exact untrimmed lookup misses, the cell reads as
NaN, and the field silently receives its predefined default for every data
row; on a concrete such upload the padded fixation column yields the
default 350 although the row carries 999. -/
theorem interior_padded_header_defaults (data : List (List Char)) :
    isValidFormat hdrPadded = true ∧
    jsIndexOf hdrPadded (("fixation duration").toList) = none ∧
    readCell hdrPadded data (("fixation duration").toList) = none ∧
    (parseRow hdrPadded data).fixationDuration = some initialFormData.fixationDuration ∧
    handleCSVUpload csvPaddedMidUpload = Except.ok ⟨100, 350, 30, 10, 7, 70⟩ := by
  have hidx : jsIndexOf hdrPadded (("fixation duration").toList) = none := by decide
  have hcell : readCell hdrPadded data (("fixation duration").toList) = none := by
    simp only [readCell, hidx]
  refine ⟨by decide, hidx, hcell, ?_, by rfl⟩
  show numberOrDefault (readCell hdrPadded data (("fixation duration").toList))
      initialFormData.fixationDuration = some initialFormData.fixationDuration
  rw [hcell]
  rfl
